import Mathlib

/-!
Verification development for the staged-execution core of a sandboxed
code runner, centred on the JVM backend
(`src/app/libs/executors/jvm_executor.py`).

Python strings are embedded as `List Char`; the Python string operations
the backend uses (`strip`, slicing, `in`, `startswith`, `lower`,
`replace`, `str.format`, `shlex.split`, `shlex.quote`) are given
executable Lean counterparts.  The backend's generator `setup_command`
is embedded denotationally: the commands it yields and the files it
writes are pure functions of the executor configuration, the scratch
directory and the guest script, and the generator's reaction to a stage
result is an explicit step function.
-/

namespace CodeJudge

/-- Characters of a Python string. -/
abbrev Str := List Char

/-- The left-brace character, spelled numerically. -/
def lbrace : Char := Char.ofNat 123

/-- The right-brace character, spelled numerically. -/
def rbrace : Char := Char.ofNat 125

/-- The single-quote character. -/
def squote : Char := Char.ofNat 39

/-- The double-quote character. -/
def dquote : Char := Char.ofNat 34

/-- The backslash character. -/
def bslash : Char := Char.ofNat 92

/-- Whitespace for Python `str.strip()` (the ASCII whitespace characters:
space, tab, newline, carriage return, vertical tab, form feed). -/
def pyIsSpace (c : Char) : Bool :=
  c == ' ' || c == '\t' || c == '\n' || c == '\r' ||
  c == Char.ofNat 11 || c == Char.ofNat 12

/-- Python `s.strip()`: remove leading and trailing whitespace. -/
def pyStrip (s : Str) : Str :=
  ((s.dropWhile pyIsSpace).reverse.dropWhile pyIsSpace).reverse

/-- Python `needle in hay` for strings: substring test. -/
def strContains (hay needle : Str) : Bool :=
  match hay with
  | [] => needle.isEmpty
  | _ :: t => needle.isPrefixOf hay || strContains t needle

/-- Python `s.lower()` (ASCII letters suffice for the markers tested). -/
def pyLower (s : Str) : Str := s.map Char.toLower

/-- Python truthiness of an optional integer: `None` and `0` are falsy. -/
def pyTruthy : Option Int → Bool
  | none => false
  | some n => n != 0

/-- Python `a or b` for an optional integer and the default `0`,
as in `self.timeout or 0`. -/
def pyOrZero (a : Option Int) : Int :=
  if pyTruthy a then a.getD 0 else 0

/-- Fuel-driven core of Python `s.replace(old, new)` (all non-overlapping
occurrences, left to right; an empty pattern inserts `new` at every
position, as in Python).  The fuel is the length of the remaining string,
so the fallback branch is never reached. -/
def pyReplaceGo (old new : Str) : Nat → Str → Str
  | _, [] => if old.isEmpty then new else []
  | Nat.succ f, c :: r =>
    if old.isEmpty then new ++ c :: pyReplaceGo old new f r
    else if old.isPrefixOf (c :: r) then
      new ++ pyReplaceGo old new f ((c :: r).drop old.length)
    else c :: pyReplaceGo old new f r
  | 0, s => s

/-- Python `s.replace(old, new)`. -/
def pyReplace (s old new : Str) : Str := pyReplaceGo old new s.length s

/-- Fuel-driven core of Python `s.format(**kw)` with plain named
replacement fields: `\x7b\x7b` and `\x7d\x7d` are literal braces, `\x7bname\x7d`
is looked up among the keyword arguments, and every malformed field
(a stray brace, an unknown or non-plain field name) yields `none`,
standing for the `ValueError`/`KeyError` Python raises.  Conversion and
format-spec syntax is not modelled: such fields fail the lookup and also
yield `none`. -/
def pyFormatGo (kw : List (Str × Str)) : Nat → Str → Option Str
  | _, [] => some []
  | Nat.succ f, c :: r =>
    if c == lbrace then
      match r with
      | [] => none
      | c2 :: r2 =>
        if c2 == lbrace then
          (pyFormatGo kw f r2).map (fun t => lbrace :: t)
        else
          match r.findIdx? (fun d => d == rbrace) with
          | none => none
          | some i =>
            match List.lookup (r.take i) kw with
            | none => none
            | some v => (pyFormatGo kw f (r.drop (i + 1))).map (fun t => v ++ t)
    else if c == rbrace then
      match r with
      | [] => none
      | c2 :: r2 =>
        if c2 == rbrace then
          (pyFormatGo kw f r2).map (fun t => rbrace :: t)
        else none
    else (pyFormatGo kw f r).map (fun t => c :: t)
  | 0, _ :: _ => none

/-- Python `s.format(**kw)`. -/
def pyFormat (kw : List (Str × Str)) (s : Str) : Option Str :=
  pyFormatGo kw s.length s

/-- Whitespace for `shlex` (its default `whitespace` attribute). -/
def shWhite (c : Char) : Bool :=
  c == ' ' || c == '\t' || c == '\r' || c == '\n'

/-- Quote state of the `shlex` lexer: outside quotes, inside single
quotes, inside double quotes. -/
inductive ShQ where
  | noq : ShQ
  | sq : ShQ
  | dq : ShQ
  deriving DecidableEq, Repr

/-- Core of Python `shlex.split` (POSIX mode, whitespace splitting):
whitespace separates tokens; single quotes protect everything; double
quotes protect everything except a backslash escaping a double quote or
a backslash; outside quotes a backslash escapes the next character.
`cur = some w` is a token under construction (possibly empty, from a
quoted empty string).  A dangling escape or an unclosed quote yields
`none`, standing for the `ValueError` Python raises. -/
def shlexGo : ShQ → Option Str → List Str → Str → Option (List Str)
  | ShQ.noq, none, acc, [] => some acc
  | ShQ.noq, some w, acc, [] => some (acc ++ [w])
  | ShQ.sq, _, _, [] => none
  | ShQ.dq, _, _, [] => none
  | ShQ.noq, cur, acc, c :: r =>
    if shWhite c then
      match cur with
      | none => shlexGo ShQ.noq none acc r
      | some w => shlexGo ShQ.noq none (acc ++ [w]) r
    else if c == squote then shlexGo ShQ.sq (some (cur.getD [])) acc r
    else if c == dquote then shlexGo ShQ.dq (some (cur.getD [])) acc r
    else if c == bslash then
      match r with
      | [] => none
      | d :: r2 => shlexGo ShQ.noq (some (cur.getD [] ++ [d])) acc r2
    else shlexGo ShQ.noq (some (cur.getD [] ++ [c])) acc r
  | ShQ.sq, cur, acc, c :: r =>
    if c == squote then shlexGo ShQ.noq cur acc r
    else shlexGo ShQ.sq (some (cur.getD [] ++ [c])) acc r
  | ShQ.dq, cur, acc, c :: r =>
    if c == dquote then shlexGo ShQ.noq cur acc r
    else if c == bslash then
      match r with
      | [] => none
      | d :: r2 =>
        if d == dquote || d == bslash then
          shlexGo ShQ.dq (some (cur.getD [] ++ [d])) acc r2
        else shlexGo ShQ.dq (some (cur.getD [] ++ [bslash, d])) acc r2
    else shlexGo ShQ.dq (some (cur.getD [] ++ [c])) acc r

/-- Python `shlex.split(s)`. -/
def shlexSplit (s : Str) : Option (List Str) :=
  shlexGo ShQ.noq none [] s

/-- Characters `shlex.quote` considers safe: ASCII letters, digits,
underscore, and the characters at-sign, percent, plus, equals, colon,
comma, dot, slash and hyphen. -/
def shSafe (c : Char) : Bool :=
  (('a' ≤ c && c ≤ 'z') || ('A' ≤ c && c ≤ 'Z') || ('0' ≤ c && c ≤ '9')) ||
  ("_@%+=:,./-".data).contains c

/-- Python `shlex.quote(s)`: the empty string becomes a pair of single
quotes; a string of safe characters is returned unchanged; otherwise the
string is wrapped in single quotes with every embedded single quote
rewritten to the five-character sequence quote, double quote, quote,
double quote, quote. -/
def shlexQuote (s : Str) : Str :=
  if s.isEmpty then [squote, squote]
  else if s.all shSafe then s
  else
    squote ::
      (s.flatMap (fun c =>
        if c == squote then [squote, dquote, squote, dquote, squote] else [c]))
      ++ [squote]

/-- Modelled from the spec: `app.libs.executors.executor` is not under
`src/`.  Spec section 6 requires a distinguished, stable `TIMEOUT` exit
code classification, disjoint from ordinary guest exit codes; only its
distinguishedness matters to the claims, so a concrete representative is
chosen. -/
def TIMEOUT_EXIT_CODE : Int := -101

/-- Modelled from the spec: `app.libs.executors.executor` is not under
`src/`.  Spec section 6 requires a distinguished, stable `COMPILE_ERROR`
exit code classification, distinct from `TIMEOUT` and from ordinary
guest exit codes. -/
def COMPILE_ERROR_EXIT_CODE : Int := -102

/-- Modelled from the spec: `app.libs.executors.executor` is not under
`src/`.  A stage or execution result (spec section 3, StageResult and
ExecutionResult share one shape): captured stdout and stderr, the exit
code, and the elapsed cost. -/
structure ProcessExecuteResult where
  stdout : Str
  stderr : Str
  exit_code : Int
  cost : Int
  deriving DecidableEq, Repr

/-- Modelled from the spec: the success component of a stage result
(spec section 6: the ProcessRunner reports success together with the
exit code, and never raises for an ordinary non-zero exit) — a process
invocation is successful exactly when it exits zero. -/
def ProcessExecuteResult.success (r : ProcessExecuteResult) : Bool :=
  r.exit_code == 0

/-- The `JvmExecutor` configuration (constructor arguments, lines 69 to
73 of the source): compiler command line, runtime command line, optional
timeout in milliseconds and optional memory limit in bytes. -/
structure JvmExecutor where
  compiler_cl : Str
  run_cl : Str
  timeout : Option Int
  memory_limit : Option Int
  deriving DecidableEq, Repr

/-- Dialect detection, first branch (source line 77): the stripped
script starts with `public class`, or `class ` occurs in its first 200
characters. -/
def javaCond (s : Str) : Bool :=
  ("public class".data).isPrefixOf (pyStrip s) ||
  strContains (s.take 200) ("class ".data)

/-- Dialect detection, second branch (source line 82): `fun main` occurs
in the first 200 characters, or `kotlin` occurs in their lowercasing. -/
def kotlinCond (s : Str) : Bool :=
  strContains (s.take 200) ("fun main".data) ||
  strContains (pyLower (s.take 200)) ("kotlin".data)

/-- The detected dialect (source lines 77 to 91): Kotlin exactly when
the Java branch does not fire and the Kotlin branch does; every other
script, including the ambiguous default of line 87, is Java. -/
def is_kotlin (s : Str) : Bool :=
  !javaCond s && kotlinCond s

/-- The guest source file path (source lines 79, 84, 89). -/
def source_file (tmp s : Str) : Str :=
  if is_kotlin s then tmp ++ ("/Main.kt".data) else tmp ++ ("/Main.java".data)

/-- The entry class name (source lines 80, 85, 90). -/
def class_name (s : Str) : Str :=
  if is_kotlin s then "MainKt".data else "Main".data

/-- Whether the guard file is generated (source line 95): Java dialect
and a truthy timeout or memory limit. -/
def hasResourceFile (e : JvmExecutor) (s : Str) : Bool :=
  !is_kotlin s && (pyTruthy e.timeout || pyTruthy e.memory_limit)

/-- Path of the generated guard file (source line 96). -/
def resourceFilePath (tmp : Str) : Str :=
  tmp ++ ("/ResourceLimit.java".data)

/-- The guard file written by `setup_command` (source lines 94 to 102):
present exactly when the guard generation condition holds. -/
def resource_file (e : JvmExecutor) (tmp s : Str) : Option Str :=
  if hasResourceFile e s then some (resourceFilePath tmp) else none

/-- The `timeout` value substituted into the guard template
(source line 99: `self.timeout or 0`). -/
def guardTimeoutParam (e : JvmExecutor) : Int := pyOrZero e.timeout

/-- The `memory_limit` value substituted into the guard template
(source line 100: `self.memory_limit or 0`). -/
def guardMemoryParam (e : JvmExecutor) : Int := pyOrZero e.memory_limit

/-- Opening of the generated Java wrapper (source lines 107 to 108):
class header and `main` method header. -/
def javaHeader : Str :=
  ("public class Main \x7b\n    public static void main(String[] args) \x7b\n".data)

/-- The guard check call line of the Java wrapper (source line 110). -/
def guardCallLine : Str :=
  ("        ResourceLimit.checkTimeout();\n".data)

/-- The `try` opener of the Java wrapper (source line 111). -/
def tryLine : Str :=
  ("        try \x7b\n".data)

/-- Closing of the generated Java wrapper (source lines 113 to 117):
catch clause, stack-trace printing, and the closing braces. -/
def javaSuffix : Str :=
  ("        \x7d catch (Exception e) \x7b\n            e.printStackTrace();\n        \x7d\n    \x7d\n\x7d\n".data)

/-- Content of the main source file written by `setup_command`
(source lines 105 to 125): the Java wrapper around the script, with the
guard check line exactly when the guard file exists; or the Kotlin
script as is when it already holds `fun main`, else wrapped in a
synthesized `fun main`. -/
def main_source (e : JvmExecutor) (s : Str) : Str :=
  if is_kotlin s then
    if strContains s ("fun main".data) then s
    else ("fun main() \x7b\n".data) ++ s ++ ("\x7d\n".data)
  else
    javaHeader ++ (if hasResourceFile e s then guardCallLine else []) ++
      tryLine ++ s ++ javaSuffix

/-- The Kotlin jar target path (source line 129). -/
def jar_file (tmp : Str) : Str := tmp ++ ("/Main.jar".data)

/-- The Kotlin jar name used by the run stage (source line 156):
`source_file.replace(".kt", ".jar")`, replacing every occurrence. -/
def jar_name (tmp s : Str) : Str :=
  pyReplace (source_file tmp s) (".kt".data) (".jar".data)

/-- The compile-stage command text before `.format` and `shlex.split`
(the interpolated f-strings of source lines 130 to 147). -/
def compileCmdStr (e : JvmExecutor) (tmp s : Str) : Str :=
  if is_kotlin s then
    e.compiler_cl ++ (" ".data) ++ source_file tmp s ++
      (" -include-runtime -d ".data) ++ jar_file tmp
  else
    match resource_file e tmp s with
    | some rf => e.compiler_cl ++ (" ".data) ++ source_file tmp s ++ (" ".data) ++ rf
    | none => e.compiler_cl ++ (" ".data) ++ source_file tmp s

/-- The keyword arguments of the compile-stage `.format` call
(source lines 132 to 133, 139 to 140, 145 to 146). -/
def compileKw (tmp s : Str) : List (Str × Str) :=
  [(("source".data), shlexQuote (source_file tmp s)),
   (("workdir".data), shlexQuote tmp)]

/-- The compile-stage argument vector (source lines 127 to 147):
`shlex.split` of the formatted command text; `none` stands for a raised
formatting or lexing error. -/
def compile_cmd (e : JvmExecutor) (tmp s : Str) : Option (List Str) :=
  (pyFormat (compileKw tmp s) (compileCmdStr e tmp s)).bind shlexSplit

/-- The run-stage command text before `.format` and `shlex.split`
(the interpolated f-strings of source lines 158 and 164). -/
def runCmdStr (e : JvmExecutor) (tmp s : Str) : Str :=
  if is_kotlin s then
    e.run_cl ++ (" -jar ".data) ++ jar_name tmp s
  else
    e.run_cl ++ (" -cp ".data) ++ tmp ++ (" ".data) ++ class_name s

/-- The keyword arguments of the run-stage `.format` call
(source lines 159 to 160, 165 to 166). -/
def runKw (tmp s : Str) : List (Str × Str) :=
  [(("exe".data),
      shlexQuote (if is_kotlin s then jar_name tmp s else class_name s)),
   (("workdir".data), shlexQuote tmp)]

/-- The run-stage argument vector (source lines 153 to 169, the command
yielded by the generator's second `yield`). -/
def runCommand (e : JvmExecutor) (tmp s : Str) : Option (List Str) :=
  (pyFormat (runKw tmp s) (runCmdStr e tmp s)).bind shlexSplit

/-- Terminal outcome of one run of the `setup_command` generator. -/
inductive GenOutcome where
  | finished : GenOutcome
  | raisedCompile : Str → GenOutcome
  | raisedValue : GenOutcome
  deriving DecidableEq, Repr

/-- Denotation of one run of the `setup_command` generator
(source lines 75 to 169), given the stage result `r1` the orchestrator
sends back for the first yielded command: the list of yielded commands
in order, paired with the terminal outcome.  On an unsuccessful compile
result the generator raises `CompileError(result.stderr)` (lines 150 to
151) before the run command is ever constructed; on a successful one it
yields the run command and then finishes. -/
def setupCommandTrace (e : JvmExecutor) (tmp s : Str)
    (r1 : ProcessExecuteResult) : List (List Str) × GenOutcome :=
  match compile_cmd e tmp s with
  | none => ([], GenOutcome.raisedValue)
  | some c1 =>
    if r1.success then
      match runCommand e tmp s with
      | none => ([c1], GenOutcome.raisedValue)
      | some c2 => ([c1, c2], GenOutcome.finished)
    else ([c1], GenOutcome.raisedCompile r1.stderr)

/-- Denotation of `JvmExecutor.execute_script` (source lines 171 to
175), with the staged driving of the generator modelled from the spec:
`app.libs.executors.executor.ScriptExecutor.execute_script` is not under
`src/`, and spec section 4.3 states that the orchestrator runs each
yielded stage in order and copies the final run stage's result verbatim
into the ExecutionResult.  Arguments `r1` and `r2` are the results the
ProcessRunner returns for the compile and run stages when they are
invoked.  The `except CompileError` arm of lines 174 to 175 yields the
compile-error result; a formatting error is not a `CompileError`, so it
propagates, modelled by `none`. -/
def execute_script (e : JvmExecutor) (tmp s : Str)
    (r1 r2 : ProcessExecuteResult) : Option ProcessExecuteResult :=
  match setupCommandTrace e tmp s r1 with
  | (_, GenOutcome.finished) => some r2
  | (_, GenOutcome.raisedCompile msg) =>
    some ⟨[], msg, COMPILE_ERROR_EXIT_CODE, 0⟩
  | (_, GenOutcome.raisedValue) => none

/-- Nanosecond conversion of the guard template's timeout
(template line 18: `{timeout} * 1_000_000L`). -/
def timeoutNanos (timeoutMs : Int) : Int := timeoutMs * 1000000

/-- A watchdog thread's observable behaviour: how long it sleeps before
acting, and the exit code it terminates the process with. -/
structure WatchdogAction where
  sleepMs : Int
  exitCode : Int
  deriving DecidableEq, Repr

/-- The timeout watchdog thread of the guard template (template lines 22
to 33): started unconditionally by the static initializer, it sleeps for
the substituted timeout and then calls `System.exit` with the
substituted `TIMEOUT_EXIT_CODE`. -/
def timeoutWatchdog (timeoutMs : Int) : WatchdogAction :=
  ⟨timeoutMs, TIMEOUT_EXIT_CODE⟩

/-- Whether the memory watchdog thread is started (template line 36:
`memoryLimitBytes > 0`). -/
def memoryThreadStarted (memoryLimitBytes : Int) : Bool :=
  memoryLimitBytes > 0

/-- The fixed polling interval of the memory watchdog (template line 46:
`Thread.sleep(100)`). -/
def memoryPollSleepMs : Int := 100

/-- One poll of the memory watchdog (template lines 40 to 45): exits
with the substituted `TIMEOUT_EXIT_CODE` when the used heap exceeds the
limit, else keeps running. -/
def memoryPollCheck (memoryLimitBytes usedMemory : Int) : Option Int :=
  if usedMemory > memoryLimitBytes then some TIMEOUT_EXIT_CODE else none

/-- The synchronous `ResourceLimit.checkTimeout` primitive of the guard
template (template lines 57 to 63): exits with the substituted
`TIMEOUT_EXIT_CODE` when the elapsed nanoseconds exceed the budget. -/
def checkTimeout (startTime currentTime timeoutNs : Int) : Option Int :=
  if currentTime - startTime > timeoutNs then some TIMEOUT_EXIT_CODE else none

/-- The timeout watchdog thread is started unconditionally by the guard
template's static initializer (template lines 22 to 33 carry no guard on
its creation, unlike the memory thread's line 36). -/
def timeoutThreadStarted : Bool := true

/-! Helper lemmas about the Python string primitives. -/

/-- A string free of both brace characters. -/
def noBraces (s : Str) : Bool :=
  s.all (fun c => !(c == lbrace) && !(c == rbrace))

theorem noBraces_append (a b : Str) :
    noBraces (a ++ b) = (noBraces a && noBraces b) := by
  simp [noBraces, List.all_append]

theorem pyFormatGo_of_noBraces (kw : List (Str × Str)) :
    ∀ (f : Nat) (s : Str), s.length ≤ f → noBraces s = true →
      pyFormatGo kw f s = some s := by
  intro f
  induction f with
  | zero =>
    intro s hlen _
    have : s = [] := List.eq_nil_of_length_eq_zero (Nat.le_zero.mp hlen)
    subst this
    rfl
  | succ f ih =>
    intro s hlen hnb
    cases s with
    | nil => rfl
    | cons c r =>
      have hboth := List.all_eq_true.mp hnb c (List.mem_cons_self c r)
      have hcl : (c == lbrace) = false := by
        cases hb : c == lbrace
        · rfl
        · rw [hb] at hboth; simp at hboth
      have hcr : (c == rbrace) = false := by
        cases hb : c == rbrace
        · rfl
        · rw [hb] at hboth; simp at hboth
      have hr : noBraces r = true :=
        List.all_eq_true.mpr fun x hx =>
          List.all_eq_true.mp hnb x (List.mem_cons_of_mem c hx)
      have hrec := ih r (Nat.le_of_succ_le_succ (by simpa using hlen)) hr
      simp [pyFormatGo, hcl, hcr, hrec]

theorem pyFormat_of_noBraces (kw : List (Str × Str)) (s : Str)
    (h : noBraces s = true) : pyFormat kw s = some s :=
  pyFormatGo_of_noBraces kw s.length s le_rfl h

theorem pyReplaceGo_mem (old new : Str) :
    ∀ (f : Nat) (s : Str) (x : Char), x ∈ pyReplaceGo old new f s →
      x ∈ s ∨ x ∈ new := by
  intro f
  induction f with
  | zero =>
    intro s x hx
    cases s with
    | nil =>
      by_cases h : old.isEmpty
      · simp [pyReplaceGo, h] at hx
        simp [hx]
      · simp [pyReplaceGo, h] at hx
    | cons c r => exact Or.inl (by simpa [pyReplaceGo] using hx)
  | succ f ih =>
    intro s x hx
    cases s with
    | nil =>
      by_cases h : old.isEmpty
      · simp [pyReplaceGo, h] at hx
        simp [hx]
      · simp [pyReplaceGo, h] at hx
    | cons c r =>
      by_cases h0 : old.isEmpty
      · simp only [pyReplaceGo, h0, if_pos] at hx
        rcases List.mem_append.mp hx with hnew | hx2
        · exact Or.inr hnew
        · rcases List.mem_cons.mp hx2 with rfl | hx3
          · exact Or.inl (List.mem_cons_self _ _)
          · rcases ih r x hx3 with h | h
            · exact Or.inl (List.mem_cons_of_mem _ h)
            · exact Or.inr h
      · by_cases hp : old.isPrefixOf (c :: r)
        · simp only [pyReplaceGo, h0, hp, if_pos, if_neg, Bool.false_eq_true,
            if_false] at hx
          rcases List.mem_append.mp hx with hnew | hx2
          · exact Or.inr hnew
          · rcases ih _ x hx2 with h | h
            · exact Or.inl (List.mem_of_mem_drop h)
            · exact Or.inr h
        · simp only [pyReplaceGo, h0, hp, Bool.false_eq_true, if_false] at hx
          rcases List.mem_cons.mp hx with rfl | hx3
          · exact Or.inl (List.mem_cons_self _ _)
          · rcases ih r x hx3 with h | h
            · exact Or.inl (List.mem_cons_of_mem _ h)
            · exact Or.inr h

theorem noBraces_pyReplace (s old new : Str) (hs : noBraces s = true)
    (hnew : noBraces new = true) : noBraces (pyReplace s old new) = true := by
  rw [noBraces, List.all_eq_true]
  intro x hx
  rcases pyReplaceGo_mem old new s.length s x hx with h | h
  · exact (List.all_eq_true.mp hs) x h
  · exact (List.all_eq_true.mp hnew) x h

theorem strContains_subset (hay needle : Str)
    (h : strContains hay needle = true) : ∀ c ∈ needle, c ∈ hay := by
  induction hay with
  | nil =>
    intro c hc
    simp only [strContains] at h
    rw [List.isEmpty_iff] at h
    subst h
    cases hc
  | cons a t ih =>
    intro c hc
    by_cases hp : needle.isPrefixOf (a :: t)
    · exact (List.isPrefixOf_iff_prefix.mp hp).subset hc
    · have hp' : needle.isPrefixOf (a :: t) = false := by
        cases hb : needle.isPrefixOf (a :: t)
        · rfl
        · exact absurd hb hp
      simp only [strContains, hp', Bool.false_or] at h
      exact List.mem_cons_of_mem a (ih h c hc)

theorem pyIsSpace_cases (c : Char) (h : pyIsSpace c = true) :
    c = ' ' ∨ c = '\t' ∨ c = '\n' ∨ c = '\r' ∨
      c = Char.ofNat 11 ∨ c = Char.ofNat 12 := by
  simp only [pyIsSpace, Bool.or_eq_true, beq_iff_eq] at h
  tauto

theorem pyIsSpace_toLower (c : Char) (h : pyIsSpace c = true) :
    c.toLower = c := by
  rcases pyIsSpace_cases c h with rfl | rfl | rfl | rfl | rfl | rfl <;> decide

theorem pubclass_prefix_rstrip (u : Str) :
    ("public class".data) <+:
      (((("public class".data) ++ u).reverse.dropWhile pyIsSpace)).reverse := by
  rw [List.reverse_append, List.dropWhile_append]
  by_cases hemp : (List.dropWhile pyIsSpace u.reverse).isEmpty
  · rw [if_pos hemp]
    have hd : List.dropWhile pyIsSpace (("public class".data).reverse) =
        ("public class".data).reverse := by decide
    rw [hd, List.reverse_reverse]
  · rw [if_neg hemp, List.reverse_append, List.reverse_reverse]
    exact List.prefix_append _ _

theorem pubclassTransferAux (ws t s2 : Str)
    (hws_space : ∀ c ∈ ws, pyIsSpace c = true)
    (heq : (ws ++ (("public class".data) ++ t)).take 200 = s2.take 200)
    (hkc : kotlinCond (ws ++ (("public class".data) ++ t)) = true) :
    ("public class".data).isPrefixOf (pyStrip s2) = true := by
  by_cases hlen : ws.length + 12 ≤ 200
  · have hws200 : ws.length ≤ 200 := by omega
    have hpclen : ("public class".data).length = 12 := by decide
    have h200 : (ws ++ (("public class".data) ++ t)).take 200 =
        ws ++ (("public class".data) ++ t.take (200 - ws.length - 12)) := by
      rw [List.take_append_eq_append_take, List.take_of_length_le hws200,
        List.take_append_eq_append_take,
        List.take_of_length_le (by rw [hpclen]; omega), hpclen]
    have hs2 : s2 = ws ++ (("public class".data) ++
        (t.take (200 - ws.length - 12) ++ s2.drop 200)) := by
      conv_lhs => rw [← List.take_append_drop 200 s2, ← heq, h200]
      simp [List.append_assoc]
    have hdrop2 : List.dropWhile pyIsSpace s2 =
        ("public class".data) ++
          (t.take (200 - ws.length - 12) ++ s2.drop 200) := by
      have hwsdrop : List.dropWhile pyIsSpace ws = [] :=
        List.dropWhile_eq_nil_iff.mpr hws_space
      have hpcdrop : List.dropWhile pyIsSpace ("public class".data) =
          ("public class".data) := by decide
      conv_lhs => rw [hs2]
      rw [List.dropWhile_append, hwsdrop, if_pos (by rfl),
        List.dropWhile_append, hpcdrop, if_neg (by decide)]
    rw [List.isPrefixOf_iff_prefix]
    unfold pyStrip
    rw [hdrop2]
    exact pubclass_prefix_rstrip _
  · exfalso
    have hmem : ∀ c ∈ (ws ++ (("public class".data) ++ t)).take 200,
        pyIsSpace c = true ∨ c ∈ ("public class".data) := by
      intro c hc
      rw [List.take_append_eq_append_take] at hc
      rcases List.mem_append.mp hc with h | h
      · exact Or.inl (hws_space c (List.mem_of_mem_take h))
      · have hm : 200 - ws.length ≤ ("public class".data).length := by
          have hpclen : ("public class".data).length = 12 := by decide
          omega
        rw [List.take_append_of_le_length hm] at h
        exact Or.inr (List.mem_of_mem_take h)
    simp only [kotlinCond, Bool.or_eq_true] at hkc
    rcases hkc with h | h
    · have hf : 'f' ∈ (ws ++ (("public class".data) ++ t)).take 200 :=
        strContains_subset _ _ h 'f' (by decide)
      rcases hmem 'f' hf with hsp | hpc
      · simp [pyIsSpace] at hsp
      · simp at hpc
    · have hk : 'k' ∈ pyLower ((ws ++ (("public class".data) ++ t)).take 200) :=
        strContains_subset _ _ h 'k' (by decide)
      rcases List.mem_map.mp hk with ⟨a, ha, hak⟩
      rcases hmem a ha with hsp | hpc
      · rw [pyIsSpace_toLower a hsp] at hak
        subst hak
        simp [pyIsSpace] at hsp
      · have hnk : ∀ c ∈ ("public class".data), ¬ c.toLower = 'k' := by decide
        exact hnk a hpc hak

theorem pubclassTransfer (s1 s2 : Str) (heq : s1.take 200 = s2.take 200)
    (hkc : kotlinCond s1 = true)
    (hp : ("public class".data).isPrefixOf (pyStrip s1) = true) :
    ("public class".data).isPrefixOf (pyStrip s2) = true := by
  have hsplit : List.takeWhile pyIsSpace s1 ++ List.dropWhile pyIsSpace s1 = s1 :=
    List.takeWhile_append_dropWhile _ _
  have hws_space : ∀ c ∈ List.takeWhile pyIsSpace s1, pyIsSpace c = true :=
    fun c hc => List.mem_takeWhile_imp hc
  have hpre1 : ("public class".data) <+: List.dropWhile pyIsSpace s1 := by
    have h1 : ("public class".data) <+: pyStrip s1 :=
      List.isPrefixOf_iff_prefix.mp hp
    have h2 : pyStrip s1 <+: List.dropWhile pyIsSpace s1 := by
      unfold pyStrip
      have h3 := List.dropWhile_suffix (l := (List.dropWhile pyIsSpace s1).reverse) pyIsSpace
      have h4 := List.reverse_prefix.mpr h3
      rwa [List.reverse_reverse] at h4
    exact h1.trans h2
  obtain ⟨t, ht⟩ := hpre1
  have hs1 : s1 = List.takeWhile pyIsSpace s1 ++ (("public class".data) ++ t) := by
    rw [ht, hsplit]
  exact pubclassTransferAux (List.takeWhile pyIsSpace s1) t s2 hws_space
    (by rw [← hs1]; exact heq) (by rw [← hs1]; exact hkc)

theorem isKotlinFactors (s1 s2 : Str) (heq : s1.take 200 = s2.take 200) :
    is_kotlin s1 = is_kotlin s2 := by
  have hkc : kotlinCond s1 = kotlinCond s2 := by
    unfold kotlinCond
    rw [heq]
  have hci : strContains (s1.take 200) ("class ".data) =
      strContains (s2.take 200) ("class ".data) := by rw [heq]
  cases hkv : kotlinCond s1 with
  | false =>
    have hk2 : kotlinCond s2 = false := by rw [← hkc]; exact hkv
    simp [is_kotlin, hkv, hk2]
  | true =>
    have hk2 : kotlinCond s2 = true := by rw [← hkc]; exact hkv
    cases hcv : strContains (s1.take 200) ("class ".data) with
    | true =>
      have h2 : strContains (s2.take 200) ("class ".data) = true := by
        rw [← hci]; exact hcv
      have hj1 : javaCond s1 = true := by simp [javaCond, hcv]
      have hj2 : javaCond s2 = true := by simp [javaCond, h2]
      simp [is_kotlin, hj1, hj2]
    | false =>
      have h2 : strContains (s2.take 200) ("class ".data) = false := by
        rw [← hci]; exact hcv
      cases hp1 : ("public class".data).isPrefixOf (pyStrip s1) with
      | true =>
        have hp2 := pubclassTransfer s1 s2 heq hkv hp1
        have hj1 : javaCond s1 = true := by simp [javaCond, hp1]
        have hj2 : javaCond s2 = true := by simp [javaCond, hp2]
        simp [is_kotlin, hj1, hj2]
      | false =>
        cases hp2 : ("public class".data).isPrefixOf (pyStrip s2) with
        | true =>
          have hp1' := pubclassTransfer s2 s1 heq.symm hk2 hp2
          rw [hp1] at hp1'
          cases hp1'
        | false =>
          have hj1 : javaCond s1 = false := by simp [javaCond, hp1, hcv]
          have hj2 : javaCond s2 = false := by simp [javaCond, hp2, h2]
          simp [is_kotlin, hj1, hj2, hkv, hk2]

/-! The claim theorems. -/

/-- C1: for every script whose compile stage returns an unsuccessful
StageResult, the backend raises a compile failure carrying that stage's
stderr verbatim and emits no further stages, and `execute_script`
returns a result whose exit code is the distinguished `COMPILE_ERROR`
classification, whose stderr is the compiler's captured error text,
whose stdout is empty, and whose cost is 0. -/
theorem compileFailureShortCircuits (e : JvmExecutor) (tmp s : Str)
    (r1 r2 : ProcessExecuteResult) (c1 : List Str)
    (hc : compile_cmd e tmp s = some c1) (hfail : r1.success = false) :
    setupCommandTrace e tmp s r1 = ([c1], GenOutcome.raisedCompile r1.stderr) ∧
    execute_script e tmp s r1 r2 =
      some ⟨[], r1.stderr, COMPILE_ERROR_EXIT_CODE, 0⟩ := by
  constructor
  · simp [setupCommandTrace, hc, hfail]
  · simp [execute_script, setupCommandTrace, hc, hfail]

/-- Closed instance of C1: a concrete failing compile stage. -/
theorem compileFailureShortCircuits_witness :
    setupCommandTrace ⟨("javac".data), ("java".data), none, none⟩
        ("/tmp".data) ("class A".data) ⟨[], ("err".data), 1, 3⟩ =
      ([[("javac".data), ("/tmp/Main.java".data)]],
        GenOutcome.raisedCompile ("err".data)) ∧
    execute_script ⟨("javac".data), ("java".data), none, none⟩
        ("/tmp".data) ("class A".data) ⟨[], ("err".data), 1, 3⟩
        ⟨("out".data), [], 0, 7⟩ =
      some ⟨[], ("err".data), COMPILE_ERROR_EXIT_CODE, 0⟩ :=
  compileFailureShortCircuits ⟨("javac".data), ("java".data), none, none⟩
    ("/tmp".data) ("class A".data) ⟨[], ("err".data), 1, 3⟩
    ⟨("out".data), [], 0, 7⟩ [("javac".data), ("/tmp/Main.java".data)]
    (by decide) (by decide)

/-- C2: for every request, `setup_command` emits exactly two stages in
order, first the compile command and then the run command; the run
command is only emitted once the compile stage's result has been
consumed and found successful, and after the run stage the sequence
terminates; when the compile result is unsuccessful the compile command
stays the only emitted stage. -/
theorem stagesEmittedInOrder (e : JvmExecutor) (tmp s : Str)
    (r1 : ProcessExecuteResult) (c1 c2 : List Str)
    (hc : compile_cmd e tmp s = some c1)
    (hr : runCommand e tmp s = some c2) :
    (r1.success = true →
      setupCommandTrace e tmp s r1 = ([c1, c2], GenOutcome.finished)) ∧
    (r1.success = false →
      (setupCommandTrace e tmp s r1).1 = [c1] ∧
      (setupCommandTrace e tmp s r1).2 = GenOutcome.raisedCompile r1.stderr) := by
  constructor
  · intro hs
    simp [setupCommandTrace, hc, hr, hs]
  · intro hs
    simp [setupCommandTrace, hc, hs]

/-- Closed instance of C2: a concrete successful pipeline emits exactly
the compile command followed by the run command. -/
theorem stagesEmittedInOrder_witness :
    setupCommandTrace ⟨("javac".data), ("java".data), none, none⟩
        ("/tmp".data) ("class A".data) ⟨[], [], 0, 3⟩ =
      ([[("javac".data), ("/tmp/Main.java".data)],
        [("java".data), ("-cp".data), ("/tmp".data), ("Main".data)]],
        GenOutcome.finished) :=
  (stagesEmittedInOrder ⟨("javac".data), ("java".data), none, none⟩
    ("/tmp".data) ("class A".data) ⟨[], [], 0, 3⟩
    [("javac".data), ("/tmp/Main.java".data)]
    [("java".data), ("-cp".data), ("/tmp".data), ("Main".data)]
    (by decide) (by decide)).1 (by decide)

/-- C3: a run stage that exits non-zero is not a backend error; whenever
the compile stage succeeds (so no compile failure is raised), the run
stage's result is returned unmodified, exit code, stdout and stderr
included. -/
theorem runResultPassedThrough (e : JvmExecutor) (tmp s : Str)
    (r1 r2 : ProcessExecuteResult) (c1 c2 : List Str)
    (hc : compile_cmd e tmp s = some c1)
    (hr : runCommand e tmp s = some c2)
    (hs : r1.success = true) :
    execute_script e tmp s r1 r2 = some r2 := by
  simp [execute_script, setupCommandTrace, hc, hr, hs]

/-- Closed instance of C3: a guest program exiting 7 with its own output
is passed through verbatim. -/
theorem runResultPassedThrough_witness :
    execute_script ⟨("javac".data), ("java".data), none, none⟩
        ("/tmp".data) ("class A".data) ⟨[], [], 0, 3⟩
        ⟨("out".data), ("oops".data), 7, 9⟩ =
      some ⟨("out".data), ("oops".data), 7, 9⟩ :=
  runResultPassedThrough ⟨("javac".data), ("java".data), none, none⟩
    ("/tmp".data) ("class A".data) ⟨[], [], 0, 3⟩
    ⟨("out".data), ("oops".data), 7, 9⟩
    [("javac".data), ("/tmp/Main.java".data)]
    [("java".data), ("-cp".data), ("/tmp".data), ("Main".data)]
    (by decide) (by decide) (by decide)

/-- C4: the guard file `ResourceLimit.java` is generated, and added to
the compile stage, exactly when the detected dialect is Java and a
timeout or a memory limit was requested (a truthy value, as Python's
`or` evaluates it); the Kotlin dialect never receives guard
injection. -/
theorem guardInjectionPolicy (e : JvmExecutor) (tmp s : Str) :
    ((resource_file e tmp s).isSome = true ↔
      (is_kotlin s = false ∧
        (pyTruthy e.timeout = true ∨ pyTruthy e.memory_limit = true))) ∧
    (is_kotlin s = true → resource_file e tmp s = none) ∧
    (∀ rf, resource_file e tmp s = some rf →
      rf = resourceFilePath tmp ∧
      compileCmdStr e tmp s =
        e.compiler_cl ++ (" ".data) ++ source_file tmp s ++ (" ".data) ++ rf) := by
  refine ⟨?_, ?_, ?_⟩
  · constructor
    · intro h
      by_cases hk : is_kotlin s
      · simp [resource_file, hasResourceFile, hk] at h
      · by_cases ht : pyTruthy e.timeout
        · exact ⟨by simpa using hk, Or.inl ht⟩
        · by_cases hm : pyTruthy e.memory_limit
          · exact ⟨by simpa using hk, Or.inr hm⟩
          · simp [resource_file, hasResourceFile, hk, ht, hm] at h
    · rintro ⟨hk, hlim⟩
      rcases hlim with ht | hm
      · simp [resource_file, hasResourceFile, hk, ht]
      · simp [resource_file, hasResourceFile, hk, hm]
  · intro hk
    simp [resource_file, hasResourceFile, hk]
  · intro rf hrf
    have hhas : hasResourceFile e s = true := by
      by_cases h : hasResourceFile e s
      · exact h
      · simp [resource_file, h] at hrf
    have hrfeq : rf = resourceFilePath tmp := by
      simp [resource_file, hhas] at hrf
      exact hrf.symm
    have hk : is_kotlin s = false := by
      by_cases h : is_kotlin s
      · simp [hasResourceFile, h] at hhas
      · simpa using h
    refine ⟨hrfeq, ?_⟩
    simp [compileCmdStr, hk, resource_file, hhas, hrfeq]

/-- Closed instance of C4: with a timeout configured and a Java script,
the guard file is generated and appears in the compile command text, and
with a Kotlin script it is not generated. -/
theorem guardInjectionPolicy_witness :
    (resource_file ⟨("javac".data), ("java".data), some 1000, none⟩
        ("/tmp".data) ("class A".data)).isSome = true ∧
    resource_file ⟨("javac".data), ("java".data), some 1000, none⟩
        ("/tmp".data) ("fun main() = 1".data) = none ∧
    compileCmdStr ⟨("javac".data), ("java".data), some 1000, none⟩
        ("/tmp".data) ("class A".data) =
      ("javac".data) ++ (" ".data) ++
        source_file ("/tmp".data) ("class A".data) ++ (" ".data) ++
        resourceFilePath ("/tmp".data) := by
  refine ⟨?_, ?_, ?_⟩
  · exact (guardInjectionPolicy ⟨("javac".data), ("java".data), some 1000, none⟩
      ("/tmp".data) ("class A".data)).1.mpr ⟨by decide, Or.inl (by decide)⟩
  · exact (guardInjectionPolicy ⟨("javac".data), ("java".data), some 1000, none⟩
      ("/tmp".data) ("fun main() = 1".data)).2.1 (by decide)
  · exact ((guardInjectionPolicy ⟨("javac".data), ("java".data), some 1000, none⟩
      ("/tmp".data) ("class A".data)).2.2 (resourceFilePath ("/tmp".data))
      (by decide)).2

/-- C5: dialect detection inspects only the first 200 characters — the
selected dialect is a function of them alone (the Java marker's
additional `public class` prefix test on the whitespace-stripped script
never changes the outcome beyond them): a `class ` marker in the first
200 characters selects Java; failing the Java marker, a `fun main`
marker or the word `kotlin` in the lowercased first 200 characters
selects Kotlin; with no marker at all the selection defaults to Java. -/
theorem dialectDetectionMarkers (s : Str) :
    (strContains (s.take 200) ("class ".data) = true → is_kotlin s = false) ∧
    (javaCond s = false → kotlinCond s = true → is_kotlin s = true) ∧
    (javaCond s = false → kotlinCond s = false → is_kotlin s = false) ∧
    (∀ s2, s.take 200 = s2.take 200 → is_kotlin s = is_kotlin s2) := by
  refine ⟨?_, ?_, ?_, fun s2 heq => isKotlinFactors s s2 heq⟩
  · intro h
    have hj : javaCond s = true := by simp [javaCond, h]
    simp [is_kotlin, hj]
  · intro hj hk
    simp [is_kotlin, hj, hk]
  · intro hj hk
    simp [is_kotlin, hj, hk]

/-- Closed instance of C5: a script with the `class ` marker is Java,
a script with only the `fun main` marker is Kotlin, and a script with
no marker defaults to Java. -/
theorem dialectDetectionMarkers_witness :
    is_kotlin ("class A".data) = false ∧
    is_kotlin ("fun main() = 1".data) = true ∧
    is_kotlin ("println(1)".data) = false ∧
    is_kotlin ("fun main() = 1".data) = is_kotlin ("fun main() = 1".data) :=
  ⟨(dialectDetectionMarkers ("class A".data)).1 (by decide),
   (dialectDetectionMarkers ("fun main() = 1".data)).2.1 (by decide) (by decide),
   (dialectDetectionMarkers ("println(1)".data)).2.2.1 (by decide) (by decide),
   (dialectDetectionMarkers ("fun main() = 1".data)).2.2.2
     ("fun main() = 1".data) rfl⟩

/-- C6: the synthesized guard terminates the process with the same
distinguished `TIMEOUT` exit code on every violation path — the timeout
watchdog, the memory watchdog (started exactly when a positive memory
ceiling is set, polling on a fixed 100 millisecond interval), and the
synchronous `checkTimeout` primitive — so a memory-limit violation is
reported with the same code as a timeout. -/
theorem guardExitCodesUniform (t m u st ct tn : Int) :
    (timeoutWatchdog t).exitCode = TIMEOUT_EXIT_CODE ∧
    (∀ c, memoryPollCheck m u = some c → c = TIMEOUT_EXIT_CODE) ∧
    (∀ c, checkTimeout st ct tn = some c → c = TIMEOUT_EXIT_CODE) ∧
    (memoryThreadStarted m = true ↔ m > 0) ∧
    memoryPollSleepMs = 100 := by
  refine ⟨rfl, ?_, ?_, ?_, rfl⟩
  · intro c hc
    by_cases h : u > m
    · simpa [memoryPollCheck, h] using hc.symm
    · simp [memoryPollCheck, h] at hc
  · intro c hc
    by_cases h : ct - st > tn
    · simpa [checkTimeout, h] using hc.symm
    · simp [checkTimeout, h] at hc
  · simp [memoryThreadStarted]

/-- Closed instance of C6: a concrete memory violation and a concrete
elapsed-time violation both exit with the `TIMEOUT` code. -/
theorem guardExitCodesUniform_witness :
    (timeoutWatchdog 500).exitCode = TIMEOUT_EXIT_CODE ∧
    TIMEOUT_EXIT_CODE = TIMEOUT_EXIT_CODE ∧
    memoryThreadStarted 1024 = true :=
  ⟨(guardExitCodesUniform 500 1024 2048 0 7 5).1,
   (guardExitCodesUniform 500 1024 2048 0 7 5).2.1 TIMEOUT_EXIT_CODE (by decide),
   (guardExitCodesUniform 500 1024 2048 0 7 5).2.2.2.1.mpr (by decide)⟩

/-- C7: in the assembled Java source with guard code injected, the
wrapper is class header, `main` header, the `ResourceLimit.checkTimeout()`
call, the `try` opener, then the guest body, then a suffix beginning
with the `catch (Exception ...)` clause — the guard check precedes the
guest body inside the generated `main`, and the body sits inside a
`try`/`catch` so a guest-thrown exception is caught and reported. -/
theorem javaWrapperStructure (e : JvmExecutor) (s : Str)
    (hk : is_kotlin s = false) (hg : hasResourceFile e s = true) :
    main_source e s = javaHeader ++ guardCallLine ++ (tryLine ++ s ++ javaSuffix) ∧
    strContains javaHeader
      ("public static void main(String[] args)".data) = true ∧
    guardCallLine = ("        ResourceLimit.checkTimeout();\n".data) ∧
    tryLine = ("        try \x7b\n".data) ∧
    ("        \x7d catch (Exception e)".data).isPrefixOf javaSuffix = true ∧
    strContains javaSuffix ("e.printStackTrace();".data) = true := by
  refine ⟨?_, by decide, rfl, rfl, by decide, by decide⟩
  simp [main_source, hk, hg]

/-- Closed instance of C7: the wrapper around a concrete guarded Java
script. -/
theorem javaWrapperStructure_witness :
    main_source ⟨("javac".data), ("java".data), some 1000, none⟩
        ("class A".data) =
      javaHeader ++ guardCallLine ++
        (tryLine ++ ("class A".data) ++ javaSuffix) :=
  (javaWrapperStructure ⟨("javac".data), ("java".data), some 1000, none⟩
    ("class A".data) (by decide) (by decide)).1

/-- C8: dialect detection and command construction are deterministic:
two invocations of `setup_command` with the same guest source, scratch
directory and configured limits select the same dialect and produce the
same source file, the same assembled wrapper and the same compile and
run command vectors (the embedding is a pure function of these inputs,
as the source consults no ambient state). -/
theorem dialectDetectionDeterministic (e1 e2 : JvmExecutor)
    (tmp1 tmp2 s1 s2 : Str) (he : e1 = e2) (htmp : tmp1 = tmp2)
    (hs : s1 = s2) :
    is_kotlin s1 = is_kotlin s2 ∧
    source_file tmp1 s1 = source_file tmp2 s2 ∧
    main_source e1 s1 = main_source e2 s2 ∧
    resource_file e1 tmp1 s1 = resource_file e2 tmp2 s2 ∧
    compile_cmd e1 tmp1 s1 = compile_cmd e2 tmp2 s2 ∧
    runCommand e1 tmp1 s1 = runCommand e2 tmp2 s2 := by
  subst he; subst htmp; subst hs
  exact ⟨rfl, rfl, rfl, rfl, rfl, rfl⟩

/-- Closed instance of C8 at a concrete request. -/
theorem dialectDetectionDeterministic_witness :
    is_kotlin ("class A".data) = is_kotlin ("class A".data) ∧
    source_file ("/tmp".data) ("class A".data) =
      source_file ("/tmp".data) ("class A".data) ∧
    main_source ⟨("javac".data), ("java".data), none, none⟩ ("class A".data) =
      main_source ⟨("javac".data), ("java".data), none, none⟩ ("class A".data) ∧
    resource_file ⟨("javac".data), ("java".data), none, none⟩
        ("/tmp".data) ("class A".data) =
      resource_file ⟨("javac".data), ("java".data), none, none⟩
        ("/tmp".data) ("class A".data) ∧
    compile_cmd ⟨("javac".data), ("java".data), none, none⟩
        ("/tmp".data) ("class A".data) =
      compile_cmd ⟨("javac".data), ("java".data), none, none⟩
        ("/tmp".data) ("class A".data) ∧
    runCommand ⟨("javac".data), ("java".data), none, none⟩
        ("/tmp".data) ("class A".data) =
      runCommand ⟨("javac".data), ("java".data), none, none⟩
        ("/tmp".data) ("class A".data) :=
  dialectDetectionDeterministic ⟨("javac".data), ("java".data), none, none⟩
    ⟨("javac".data), ("java".data), none, none⟩ ("/tmp".data) ("/tmp".data)
    ("class A".data) ("class A".data) rfl rfl rfl

/-- C9: for a Java-dialect request with a memory limit set but no
timeout configured, the guard file is still generated with the timeout
placeholder substituted by 0 (`self.timeout or 0`), so the timeout
watchdog is started with a sleep duration of 0 milliseconds and then
terminates the process with the `TIMEOUT` exit code essentially
immediately — the watchdog is not disabled. -/
theorem memoryLimitOnlyGuard (e : JvmExecutor) (tmp s : Str)
    (ht : e.timeout = none) (hm : pyTruthy e.memory_limit = true)
    (hk : is_kotlin s = false) :
    resource_file e tmp s = some (resourceFilePath tmp) ∧
    guardTimeoutParam e = 0 ∧
    timeoutThreadStarted = true ∧
    timeoutWatchdog (guardTimeoutParam e) =
      ⟨0, TIMEOUT_EXIT_CODE⟩ := by
    refine ⟨?_, ?_, rfl, ?_⟩
    · simp [resource_file, hasResourceFile, hk, hm]
    · simp [guardTimeoutParam, pyOrZero, ht, pyTruthy]
    · simp [timeoutWatchdog, guardTimeoutParam, pyOrZero, ht, pyTruthy]

/-- Closed instance of C9: memory limit of one megabyte, no timeout. -/
theorem memoryLimitOnlyGuard_witness :
    resource_file ⟨("javac".data), ("java".data), none, some 1048576⟩
        ("/tmp".data) ("class A".data) =
      some (resourceFilePath ("/tmp".data)) ∧
    guardTimeoutParam ⟨("javac".data), ("java".data), none, some 1048576⟩ = 0 :=
  ⟨(memoryLimitOnlyGuard ⟨("javac".data), ("java".data), none, some 1048576⟩
      ("/tmp".data) ("class A".data) rfl (by decide) (by decide)).1,
   (memoryLimitOnlyGuard ⟨("javac".data), ("java".data), none, some 1048576⟩
      ("/tmp".data) ("class A".data) rfl (by decide) (by decide)).2.1⟩

theorem noBraces_source_file (tmp s : Str) (h : noBraces tmp = true) :
    noBraces (source_file tmp s) = true := by
  unfold source_file
  split
  · rw [noBraces_append, h]
    decide
  · rw [noBraces_append, h]
    decide

theorem noBraces_compileCmdStr (e : JvmExecutor) (tmp s : Str)
    (h1 : noBraces e.compiler_cl = true) (h3 : noBraces tmp = true) :
    noBraces (compileCmdStr e tmp s) = true := by
  have hsf := noBraces_source_file tmp s h3
  unfold compileCmdStr
  split
  · simp only [jar_file, noBraces_append, h1, hsf, h3, Bool.and_self,
      Bool.true_and, Bool.and_true]
    decide
  · split
    next rf heq =>
      have hrf : rf = resourceFilePath tmp := by
        unfold resource_file at heq
        split at heq
        · exact (Option.some.injEq _ _ ▸ heq).symm
        · cases heq
      subst hrf
      simp only [resourceFilePath, noBraces_append, h1, hsf, h3,
        Bool.true_and, Bool.and_true]
      decide
    next heq =>
      simp only [noBraces_append, h1, hsf, Bool.true_and, Bool.and_true]
      decide

theorem noBraces_runCmdStr (e : JvmExecutor) (tmp s : Str)
    (h2 : noBraces e.run_cl = true) (h3 : noBraces tmp = true) :
    noBraces (runCmdStr e tmp s) = true := by
  have hsf := noBraces_source_file tmp s h3
  unfold runCmdStr
  split
  · have hj : noBraces (jar_name tmp s) = true :=
      noBraces_pyReplace _ _ _ hsf (by decide)
    simp only [noBraces_append, h2, hj, Bool.true_and, Bool.and_true]
    decide
  · unfold class_name
    split
    · simp only [noBraces_append, h2, h3, Bool.true_and, Bool.and_true]
      decide
    · simp only [noBraces_append, h2, h3, Bool.true_and, Bool.and_true]
      decide

/-- C10: the trailing `.format(source=..., workdir=...)` calls are no
ops, because after f-string interpolation the command text holds no
brace-delimited replacement fields (given the interpolated configuration
strings and scratch path are themselves brace-free), so every emitted
argument vector is exactly `shlex.split` of the plainly interpolated
command string; consequently a scratch path containing whitespace
fragments the source-file path across several argv tokens, as the
concrete instance with `/tmp/a b` shows. -/
theorem formatCallsNoop (e : JvmExecutor) (tmp s : Str)
    (h1 : noBraces e.compiler_cl = true) (h2 : noBraces e.run_cl = true)
    (h3 : noBraces tmp = true) :
    compile_cmd e tmp s = shlexSplit (compileCmdStr e tmp s) ∧
    runCommand e tmp s = shlexSplit (runCmdStr e tmp s) ∧
    compile_cmd ⟨("javac".data), ("java".data), none, none⟩
        ("/tmp/a b".data) ("class A".data) =
      some [("javac".data), ("/tmp/a".data), ("b/Main.java".data)] := by
  refine ⟨?_, ?_, by decide⟩
  · rw [compile_cmd,
      pyFormat_of_noBraces _ _ (noBraces_compileCmdStr e tmp s h1 h3),
      Option.some_bind]
  · rw [runCommand,
      pyFormat_of_noBraces _ _ (noBraces_runCmdStr e tmp s h2 h3),
      Option.some_bind]

/-- Closed instance of C10 at a concrete brace-free configuration. -/
theorem formatCallsNoop_witness :
    compile_cmd ⟨("javac".data), ("java".data), none, none⟩
        ("/tmp/a b".data) ("class A".data) =
      shlexSplit (compileCmdStr ⟨("javac".data), ("java".data), none, none⟩
        ("/tmp/a b".data) ("class A".data)) ∧
    compile_cmd ⟨("javac".data), ("java".data), none, none⟩
        ("/tmp/a b".data) ("class A".data) =
      some [("javac".data), ("/tmp/a".data), ("b/Main.java".data)] :=
  ⟨(formatCallsNoop ⟨("javac".data), ("java".data), none, none⟩
      ("/tmp/a b".data) ("class A".data) (by decide) (by decide) (by decide)).1,
   (formatCallsNoop ⟨("javac".data), ("java".data), none, none⟩
      ("/tmp/a b".data) ("class A".data) (by decide) (by decide) (by decide)).2.2⟩

end CodeJudge
